import Mathlib

/-!
Verification development for the serviceline-lead-generation pipeline.

Shallow embedding of:
* the lead scoring engine (`LeadScorer` class: `calculateScore`, the seven
  component scorers, `determineLeadTier`, `generateRecommendations`,
  `scoreLeads`);
* the scraper's `deduplicateLeads`;
* the email-webhook lead state machine (`processSendGridEvent`,
  `updateLeadStatus`, `incrementEngagementScore`, `handleEmailOpened`,
  `handleEmailClicked`, `cancelScheduledFollowUps`);
* the campaign processor's hot-lead trigger (`triggerHotLeadCampaign`,
  `scheduleFollowUpSequence`);
* the cron scheduler's `runDailyScraping`.

JavaScript `x || d` on numbers/strings (with `0`, `""`, `null`/`undefined`
falsy) is modelled by the `jsIntOr`/`jsQOr`/`jsStrOr` helpers; absent object
fields are `Option.none`; JavaScript comparisons against `undefined`
(always false) are modelled by explicit `Option` matches.
-/

namespace SL

/-- JS `x || d` for numeric fields: `null`/`undefined` and `0` fall back. -/
def jsIntOr (o : Option Int) (d : Int) : Int :=
  match o with
  | some v => if v = 0 then d else v
  | none => d

/-- JS `x || d` for rational-valued fields (ratings, rates). -/
def jsQOr (o : Option ℚ) (d : ℚ) : ℚ :=
  match o with
  | some v => if v = 0 then d else v
  | none => d

/-- JS `x || d` for string fields: `null`/`undefined` and `""` fall back. -/
def jsStrOr (o : Option String) (d : String) : String :=
  match o with
  | some s => if s = "" then d else s
  | none => d

/-- JS truthiness of an optional string (`undefined` and `""` are falsy). -/
def jsTruthyStr (o : Option String) : Bool :=
  match o with
  | some s => s ≠ ""
  | none => false

/-- JS `toLowerCase` (ASCII case folding, structurally recursive). -/
def jsToLower (s : String) : String := String.mk (s.data.map Char.toLower)

/-- JS `toUpperCase` (ASCII case folding, structurally recursive). -/
def jsToUpper (s : String) : String := String.mk (s.data.map Char.toUpper)

/-- `pat` is a prefix of `s` (as char lists). -/
def charPrefix : List Char → List Char → Bool
  | [], _ => true
  | _ :: _, [] => false
  | p :: ps, c :: cs => p = c && charPrefix ps cs

/-- `pat` occurs as a contiguous substring of `s` (as char lists). -/
def charContains (s pat : List Char) : Bool :=
  match s with
  | [] => charPrefix pat []
  | _ :: cs => charPrefix pat s || charContains cs pat

/-- JS `String.prototype.includes`: `pat` occurs in `s`. -/
def containsSub (s pat : String) : Bool :=
  charContains s.data pat.data

/-- JS `Math.round` (round half toward positive infinity). -/
def jround (q : ℚ) : Int := Int.floor (q + 1 / 2)

/-! ### Lead shape (scoring input), from `lead-scorer.js` -/

/-- `website_quality` enrichment block; an absent field is JS `undefined`. -/
structure WebsiteQuality where
  hasWebsite : Bool := false
  hasMobileViewport : Bool := false
  hasSSL : Bool := false
  loadTime : Option Int := none
  hasMetaDescription : Bool := false
  titleLength : Option Int := none
  hasGoogleAnalytics : Bool := false
  hasLiveChat : Bool := false
  hasFacebookPixel : Bool := false
deriving DecidableEq, Repr

/-- `seo_data` enrichment block. -/
structure SeoData where
  indexed : Bool := false
  estimatedRanking : Option Int := none
  organicKeywords : Option Int := none
  industryKeywords : Option (List String) := none
deriving DecidableEq, Repr

/-- `ad_presence` enrichment block. -/
structure AdPresence where
  hasGoogleAds : Bool := false
  estimatedAdSpend : Option String := none
  hasFacebookAds : Bool := false
  hasYelpAds : Bool := false
deriving DecidableEq, Repr

/-- One social platform entry of the `social_presence` block. -/
structure PlatformData where
  hasProfile : Bool := false
  engagement : Option String := none
  followersCount : Option Int := none
deriving DecidableEq, Repr

/-- `social_presence` enrichment block (the five platforms the code checks). -/
structure SocialPresence where
  facebook : Option PlatformData := none
  instagram : Option PlatformData := none
  linkedin : Option PlatformData := none
  twitter : Option PlatformData := none
  youtube : Option PlatformData := none
deriving DecidableEq, Repr

/-- The fields of a lead row that `LeadScorer` reads (snake_case and
camelCase aliases in the source collapse to one field each). -/
structure Lead where
  websiteQuality : Option WebsiteQuality := none
  website : Option String := none
  seoData : Option SeoData := none
  industry : Option String := none
  adPresence : Option AdPresence := none
  rating : Option ℚ := none
  reviewCount : Option Int := none
  reviewResponseRate : Option ℚ := none
  socialPresence : Option SocialPresence := none
  estimatedSize : Option String := none
  employeeCount : Option Int := none
  address : Option String := none
  location : Option String := none
  localCompetitorCount : Option Int := none
deriving DecidableEq, Repr

/-! ### Component scorers -/

/-- `scoreWebsiteQuality` (0-100): no website at all scores 100; otherwise
each missing quality indicator adds its points, capped at 100. -/
def scoreWebsiteQuality (lead : Lead) : Int :=
  let wq := lead.websiteQuality.getD {}
  if !wq.hasWebsite && !jsTruthyStr lead.website then 100
  else
    let score : Int :=
      (if !wq.hasMobileViewport then 20 else 0) +
      (if !wq.hasSSL then 15 else 0) +
      (if (match wq.loadTime with | some t => decide (t > 3000) | none => false) then 15 else 0) +
      (if !wq.hasMetaDescription then 10 else 0) +
      (if (match wq.titleLength with | some t => decide (t < 30) | none => false) then 10 else 0) +
      (if !wq.hasGoogleAnalytics then 10 else 0) +
      (if !wq.hasLiveChat then 10 else 0) +
      (if !wq.hasFacebookPixel then 10 else 0)
    min score 100

/-- The industry keyword table of the scorer's constructor. -/
def industryKeywordTable (industry : String) : List String :=
  if industry = "HVAC" then
    ["hvac repair", "air conditioning", "heating service", "ac repair"]
  else if industry = "PLUMBING" then
    ["plumber", "plumbing service", "emergency plumber", "drain cleaning"]
  else if industry = "ROOFING" then
    ["roofing contractor", "roof repair", "roof replacement"]
  else if industry = "ELECTRICAL" then
    ["electrician", "electrical service", "electrical repair"]
  else []

/-- `analyzeIndustryKeywords`: 30 when the lead's industry has known
keywords but the SEO data records none, else 15. -/
def analyzeIndustryKeywords (lead : Lead) (seo : SeoData) : Int :=
  let kws :=
    match lead.industry with
    | some i => industryKeywordTable (jsToUpper i)
    | none => []
  if kws.length > 0 &&
      (match seo.industryKeywords with
       | none => true
       | some l => decide (l.length = 0)) then 30
  else 15

/-- `scoreSEORanking` (0-100): unindexed scores 100; else ranking bucket +
keyword-count bucket + industry keyword analysis, capped at 100. -/
def scoreSEORanking (lead : Lead) : Int :=
  let seo := lead.seoData.getD {}
  if !seo.indexed then 100
  else
    let ranking := jsIntOr seo.estimatedRanking 50
    let organicKeywords := jsIntOr seo.organicKeywords 0
    let s1 : Int := if ranking > 50 then 40 else if ranking > 20 then 25 else 10
    let s2 : Int := if organicKeywords < 50 then 30 else if organicKeywords < 200 then 20 else 10
    min (s1 + s2 + analyzeIndustryKeywords lead seo) 100

/-- `scoreAdPresence` (0-100). -/
def scoreAdPresence (lead : Lead) : Int :=
  let ap := lead.adPresence.getD {}
  let base : Int :=
    if !ap.hasGoogleAds || ap.estimatedAdSpend = some "None" then 80
    else if ap.estimatedAdSpend = some "Low" || ap.estimatedAdSpend = some "Active" then 40
    else 20
  let score := base + (if !ap.hasFacebookAds then 10 else 0) + (if !ap.hasYelpAds then 10 else 0)
  min score 100

/-- `scoreReviews` (0-100): review-count bucket + rating bucket +
response-rate bucket, capped at 100. -/
def scoreReviews (lead : Lead) : Int :=
  let rating := jsQOr lead.rating 0
  let reviewCount := jsIntOr lead.reviewCount 0
  let s1 : Int := if reviewCount < 10 then 40 else if reviewCount < 50 then 25
    else if reviewCount < 100 then 15 else 5
  let s2 : Int := if rating < 3 then 40 else if rating < 4 then 30
    else if rating < 9 / 2 then 20 else 10
  let responseRate := jsQOr lead.reviewResponseRate 0
  let s3 : Int := if responseRate < 30 then 20 else if responseRate < 60 then 10 else 0
  min (s1 + s2 + s3) 100

/-- Per-platform contribution of `scoreSocialPresence`: points added and
whether the platform counts as missing. -/
def scorePlatform (p : Option PlatformData) : Int × Nat :=
  match p with
  | none => (15, 1)
  | some pd =>
    if !pd.hasProfile then (15, 1)
    else if pd.engagement = some "low" ||
        (match pd.followersCount with | some f => decide (f < 100) | none => false) then (10, 0)
    else (5, 0)

/-- `scoreSocialPresence` (0-100): sums the per-platform points; a lead
missing from all five platforms is overridden to 100; capped at 100. -/
def scoreSocialPresence (lead : Lead) : Int :=
  let sp := lead.socialPresence.getD {}
  let results := [sp.facebook, sp.instagram, sp.linkedin, sp.twitter, sp.youtube].map scorePlatform
  let score : Int := results.foldl (fun acc r => acc + r.1) 0
  let missing : Nat := results.foldl (fun acc r => acc + r.2) 0
  let score2 := if missing = 5 then 100 else score
  min score2 100

/-- `scoreCompanySize` (0-100). -/
def scoreCompanySize (lead : Lead) : Int :=
  let size := jsStrOr lead.estimatedSize "Unknown"
  let base : Int :=
    if jsToLower size = "large" then 90
    else if jsToLower size = "medium" then 75
    else if jsToLower size = "small" then 50
    else if jsToLower size = "startup" then 30
    else 40
  let employees := jsIntOr lead.employeeCount 0
  let s1 := if employees > 50 then min (base + 10) 100 else base
  if employees > 100 then min (s1 + 10) 100 else s1

/-- The major-city list of `scoreMarketCompetitiveness`. -/
def majorCities : List String :=
  ["new york", "los angeles", "chicago", "houston", "phoenix",
   "philadelphia", "san antonio", "san diego", "dallas", "miami"]

/-- `scoreMarketCompetitiveness` (0-100). -/
def scoreMarketCompetitiveness (lead : Lead) : Int :=
  let location := jsStrOr lead.address (jsStrOr lead.location "")
  let isMetroArea := majorCities.any (fun city => containsSub (jsToLower location) city)
  let score : Int := if isMetroArea then 80 else 60
  let competitorCount := jsIntOr lead.localCompetitorCount 0
  if competitorCount > 50 then min (score + 15) 100
  else if competitorCount > 20 then min (score + 10) 100
  else score

/-! ### Weighted total, tier, recommendations -/

/-- The scorer's constructor weights (`this.weights`). -/
structure Weights where
  websiteQuality : Int := 25
  seoRanking : Int := 20
  adPresence : Int := 15
  reviewScore : Int := 15
  socialPresence : Int := 10
  companySize : Int := 10
  marketCompetitiveness : Int := 5
deriving DecidableEq, Repr

/-- The concrete weight record used by `calculateScore`. -/
def weights : Weights := {}

/-- The map of named component scores produced by `calculateScore`. -/
structure ComponentScores where
  websiteQuality : Int
  seoRanking : Int
  adPresence : Int
  reviewScore : Int
  socialPresence : Int
  companySize : Int
  marketCompetitiveness : Int
deriving DecidableEq, Repr

/-- `determineLeadTier`. -/
def determineLeadTier (score : Int) : String :=
  if score ≥ 80 then "Hot Lead"
  else if score ≥ 60 then "Warm Lead"
  else if score ≥ 40 then "Cold Lead"
  else "Low Priority"

/-- One entry of the recommendation list. -/
structure Recommendation where
  priority : String
  category : String
  recommendation : String
  services : List String
deriving DecidableEq, Repr

/-- The priority order map used to sort recommendations. -/
def priorityOrder (p : String) : Int :=
  if p = "High" then 1 else if p = "Medium" then 2 else 3

/-- Comparator relation of the recommendation sort. -/
def recLe (a b : Recommendation) : Prop := priorityOrder a.priority ≤ priorityOrder b.priority

instance : DecidableRel recLe := fun a b =>
  inferInstanceAs (Decidable (priorityOrder a.priority ≤ priorityOrder b.priority))

/-- `generateRecommendations`: one conditional entry per component above its
opportunity threshold, sorted by priority (stable). -/
def generateRecommendations (scores : ComponentScores) : List Recommendation :=
  let recs :=
    (if scores.websiteQuality ≥ 70 then
      [Recommendation.mk "High" "Website" "Website redesign and optimization needed"
        ["Website Development", "Mobile Optimization", "Speed Optimization"]] else []) ++
    (if scores.seoRanking ≥ 60 then
      [Recommendation.mk "High" "SEO" "SEO optimization required to improve rankings"
        ["Local SEO", "On-Page SEO", "Content Marketing", "Link Building"]] else []) ++
    (if scores.adPresence ≥ 60 then
      [Recommendation.mk "High" "Paid Advertising" "PPC campaigns needed to increase visibility"
        ["Google Ads", "Local Service Ads", "Facebook Ads"]] else []) ++
    (if scores.reviewScore ≥ 60 then
      [Recommendation.mk "Medium" "Reputation Management" "Review generation and management needed"
        ["Review Management", "Reputation Monitoring", "Review Response"]] else []) ++
    (if scores.socialPresence ≥ 60 then
      [Recommendation.mk "Medium" "Social Media" "Social media presence needs development"
        ["Social Media Marketing", "Content Creation", "Community Management"]] else [])
  recs.insertionSort recLe

/-- The result record of `calculateScore`. -/
structure ScoreData where
  totalScore : Int
  tier : String
  componentScores : ComponentScores
  recommendations : List Recommendation
deriving DecidableEq, Repr

/-- The weighted sum `Σ componentScore * weight`; the source accumulates
`Σ (score/100) * weight`, which in exact arithmetic equals this sum divided
by 100. -/
def weightedSum (scores : ComponentScores) : Int :=
  scores.websiteQuality * weights.websiteQuality +
  scores.seoRanking * weights.seoRanking +
  scores.adPresence * weights.adPresence +
  scores.reviewScore * weights.reviewScore +
  scores.socialPresence * weights.socialPresence +
  scores.companySize * weights.companySize +
  scores.marketCompetitiveness * weights.marketCompetitiveness

/-- `calculateScore`: the seven component scores, their weighted total
(each `score/100 * weight`, summed, then `Math.round`ed), the tier and the
recommendation list.  `Math.round (weightedSum/100)` is computed as
`(weightedSum + 50) / 100` in euclidean integer division; the lemma
`round_weighted_eq_floor` below shows this equals `⌊weightedSum/100 + 1/2⌋`,
i.e. `jround` of the exact rational total. -/
def calculateScore (lead : Lead) : ScoreData :=
  let scores : ComponentScores :=
    ⟨scoreWebsiteQuality lead, scoreSEORanking lead, scoreAdPresence lead,
     scoreReviews lead, scoreSocialPresence lead, scoreCompanySize lead,
     scoreMarketCompetitiveness lead⟩
  let finalScore := (weightedSum scores + 50) / 100
  ⟨finalScore, determineLeadTier finalScore, scores, generateRecommendations scores⟩

/-- The integer rounding used in `calculateScore` agrees with `Math.round`
(`jround`) applied to the exact rational weighted total `x / 100`. -/
theorem round_weighted_eq_floor (x : Int) : (x + 50) / 100 = jround ((x : ℚ) / 100) := by
  have h : ((x : ℚ)) / 100 + 1 / 2 = ((x + 50 : ℤ) : ℚ) / ((100 : ℕ) : ℚ) := by
    push_cast
    ring
  rw [jround, h, Rat.floor_intCast_div_natCast]
  norm_num

/-! ### Batch scoring (`scoreLeads`) -/

/-- The enriched lead object pushed by `scoreLeads` (`{...lead, score, tier,
component_scores, recommendations}`); the error branch sets only `score` and
`tier`. -/
structure ScoredLead where
  base : Lead
  score : Int
  tier : String
  componentScores : Option ComponentScores := none
  recommendations : Option (List Recommendation) := none
deriving DecidableEq, Repr

/-- The comparator relation of `scoreLeads`' final sort
(`(a, b) => b.score - a.score`, i.e. descending score). -/
def scoreGe (a b : ScoredLead) : Prop := b.score ≤ a.score

instance : DecidableRel scoreGe := fun a b =>
  inferInstanceAs (Decidable (b.score ≤ a.score))

instance : IsTotal ScoredLead scoreGe := ⟨fun a b => le_total b.score a.score⟩

instance : IsTrans ScoredLead scoreGe := ⟨fun _ _ _ hab hbc => le_trans hbc hab⟩

/-- One iteration of the `scoreLeads` loop: try scoring the lead; on error,
push it with `score 0` and `tier 'Error'` instead of propagating.  The
fallible scoring call is abstracted as `f`; the real method uses
`calculateScore`, which in this embedding is total. -/
def scoreStep (f : Lead → Except String ScoreData) (lead : Lead) : ScoredLead :=
  match f lead with
  | .ok sd => ⟨lead, sd.totalScore, sd.tier, some sd.componentScores, some sd.recommendations⟩
  | .error _ => ⟨lead, 0, "Error", none, none⟩

/-- `scoreLeads` with the fallible per-lead scoring call abstracted:
score every lead (catching per-lead errors), then sort by score
descending (JS `Array.prototype.sort` is stable, as is insertion sort). -/
def scoreLeadsWith (f : Lead → Except String ScoreData) (leads : List Lead) : List ScoredLead :=
  (leads.map (scoreStep f)).insertionSort scoreGe

/-- `scoreLeads` as written, with the total `calculateScore`. -/
def scoreLeads (leads : List Lead) : List ScoredLead :=
  scoreLeadsWith (fun l => Except.ok (calculateScore l)) leads

/-! ### Deduplication (`deduplicateLeads`, `home-service-scraper.js`) -/

/-- A scraped lead candidate (the fields `deduplicateLeads` reads, plus
payload fields that ride along unchanged). -/
structure Candidate where
  name : String
  address : String
  phone : Option String := none
  website : Option String := none
  source : Option String := none
deriving DecidableEq, Repr

/-- The dedup key of `deduplicateLeads`:
`` `${lead.name.toLowerCase()}-${lead.address.toLowerCase()}` ``. -/
def dedupKey (c : Candidate) : String :=
  jsToLower c.name ++ "-" ++ jsToLower c.address

/-- The `filter` loop of `deduplicateLeads` with its mutable `seen` set made
explicit. -/
def dedupGo (seen : List String) : List Candidate → List Candidate
  | [] => []
  | l :: ls =>
    let key := dedupKey l
    if key ∈ seen then dedupGo seen ls
    else l :: dedupGo (key :: seen) ls

/-- `deduplicateLeads`: keep the first candidate per dedup key. -/
def deduplicateLeads (leads : List Candidate) : List Candidate :=
  dedupGo [] leads

/-- Normalization as the spec words it: lower-case and strip
punctuation/whitespace variance from a string (here: drop every character
that is not alphanumeric).  Used only to compare the spec's claimed
normalization against `dedupKey`. -/
def specNormalize (s : String) : String :=
  String.mk ((jsToLower s).data.filter Char.isAlphanum)

/-- The spec's claimed normalized identity key over name and address. -/
def specIdentityKey (c : Candidate) : String :=
  specNormalize c.name ++ "-" ++ specNormalize c.address

/-! ### Email webhook state machine (`email-webhooks.js`)

State of one lead and its messages, follow-up queue, enrichment queue and
activity notes, as touched by `processSendGridEvent` and its helpers.  The
supabase tables are modelled by lists; all messages in the state belong to
the modelled lead. -/

/-- Lead lifecycle status values stored in `leads.status`. -/
inductive LeadStatus
  | isNew
  | contacted
  | qualified
  | converted
  | lost
deriving DecidableEq, Repr

/-- The lead row fields the webhook handlers and the scoring processor
touch: `status` and `lead_score` (one single field serves both the scoring
engine's total and the engagement increments). -/
structure LeadRow where
  status : LeadStatus
  leadScore : Option Int
deriving DecidableEq, Repr

/-- A row of the `messages` table. -/
structure MessageRow where
  rowId : Nat
  mid : Nat
  status : String := ""
  deliveredAt : Option Nat := none
  openedAt : Option Nat := none
  clickedAt : Option Nat := none
  errorMessage : Option String := none
deriving DecidableEq, Repr

/-- A delayed follow-up job sitting in the `followup` queue. -/
structure FollowupJob where
  leadId : Nat
  sequence : String
  delayMs : Int
  priority : Int
deriving DecidableEq, Repr

/-- A job enqueued into some other queue during event processing
(enrichment refresh etc.). -/
structure QueuedJob where
  queue : String
  jobType : String
  leadId : Nat
  priority : Int
  delayMs : Int := 0
deriving DecidableEq, Repr

/-- The state read and mutated while processing one lead's webhook events. -/
structure WebhookState where
  leadId : Nat
  lead : LeadRow
  messages : List MessageRow
  followupJobs : List FollowupJob
  queuedJobs : List QueuedJob
  notes : List String
deriving DecidableEq, Repr

/-- A SendGrid webhook event (after JSON parsing). -/
structure SgEvent where
  eventType : String
  sgMessageId : Nat
  timestamp : Nat
  url : Option String := none
  reason : Option String := none
deriving DecidableEq, Repr

/-- `recordLeadActivity`: append a note row. -/
def recordLeadActivity (st : WebhookState) (note : String) : WebhookState :=
  { st with notes := st.notes ++ [note] }

/-- `updateLeadStatus`: set `leads.status` unconditionally, then record the
optional note. -/
def updateLeadStatus (st : WebhookState) (status : LeadStatus) (note : Option String) :
    WebhookState :=
  let st1 := { st with lead := { st.lead with status := status } }
  match note with
  | some n => recordLeadActivity st1 n
  | none => st1

/-- `incrementEngagementScore`: `lead_score := min((lead_score || 0) + points, 100)`. -/
def incrementEngagementScore (st : WebhookState) (points : Int) : WebhookState :=
  { st with lead := { st.lead with leadScore := some (min (jsIntOr st.lead.leadScore 0 + points) 100) } }

/-- `cancelScheduledFollowUps`: remove every delayed `followup` job whose
payload `leadId` matches this lead. -/
def cancelScheduledFollowUps (st : WebhookState) : WebhookState :=
  { st with followupJobs := st.followupJobs.filter (fun j => !(j.leadId = st.leadId : Bool)) }

/-- The enrichment job queued on a first open
(`addJob('enrichment', 'enrich-engaged-lead', {leadId, ...}, {priority: 7})`). -/
def enrichJob (leadId : Nat) : QueuedJob :=
  ⟨"enrichment", "enrich-engaged-lead", leadId, 7, 0⟩

/-- `handleEmailOpened`: add 5 engagement points, record the note, then —
counting the messages whose `opened_at` is already recorded — treat a count
of exactly 1 as the first open: qualify the lead and queue enrichment.
(The current event's `opened_at` is persisted only after this handler
returns, in `processSendGridEvent`.) -/
def handleEmailOpened (st : WebhookState) : WebhookState :=
  let st1 := incrementEngagementScore st 5
  let st2 := recordLeadActivity st1 "Email opened"
  let opens := st2.messages.countP (fun m => m.openedAt.isSome)
  if opens = 1 then
    let st3 := updateLeadStatus st2 .qualified (some "Opened first email")
    { st3 with queuedJobs := st3.queuedJobs ++ [enrichJob st3.leadId] }
  else st2

/-- `handleEmailClicked`: add 10 engagement points, record the note, mark
qualified, cancel the pending follow-ups. -/
def handleEmailClicked (st : WebhookState) (url : String) : WebhookState :=
  let st1 := incrementEngagementScore st 10
  let st2 := recordLeadActivity st1 ("Clicked link: " ++ url)
  let st3 := updateLeadStatus st2 .qualified (some "Clicked email link")
  cancelScheduledFollowUps st3

/-- Apply the accumulated `updateData` of `processSendGridEvent` to the
message row found for the event. -/
def updateMessage (st : WebhookState) (rowId : Nat) (f : MessageRow → MessageRow) :
    WebhookState :=
  { st with messages := st.messages.map (fun m => if m.rowId = rowId then f m else m) }

/-- `processSendGridEvent`: look the message up by SendGrid message id (a
missing message is logged and dropped), dispatch on the event type, then
persist the message-row updates. -/
def processSendGridEvent (ev : SgEvent) (st : WebhookState) : WebhookState :=
  match st.messages.find? (fun m => m.mid = ev.sgMessageId) with
  | none => st
  | some message =>
    if ev.eventType = "delivered" then
      let st1 := updateLeadStatus st .contacted none
      updateMessage st1 message.rowId
        (fun m => { m with status := "delivered", deliveredAt := some ev.timestamp })
    else if ev.eventType = "open" then
      let st1 := handleEmailOpened st
      updateMessage st1 message.rowId (fun m => { m with openedAt := some ev.timestamp })
    else if ev.eventType = "click" then
      let st1 := handleEmailClicked st (jsStrOr ev.url "")
      updateMessage st1 message.rowId (fun m => { m with clickedAt := some ev.timestamp })
    else if ev.eventType = "bounce" || ev.eventType = "dropped" then
      let st1 := updateLeadStatus st .lost (some "Email bounced")
      updateMessage st1 message.rowId
        (fun m => { m with status := "bounced", errorMessage := some (jsStrOr ev.reason "Email bounced") })
    else if ev.eventType = "spam_report" then
      let st1 := updateLeadStatus st .lost (some "Marked as spam")
      updateMessage st1 message.rowId
        (fun m => { m with status := "failed", errorMessage := some "Marked as spam" })
    else st

/-! ### Hot-lead campaign trigger (`campaign-processor.js` scoring side) -/

/-- `scheduleFollowUpSequence`'s schedule table
(`[{delay: 3, type: 'followup-1'}, {delay: 7, type: 'followup-2'},
{delay: 14, type: 'case-study'}]`). -/
def followUpSchedule : List (Int × String) :=
  [(3, "followup-1"), (7, "followup-2"), (14, "case-study")]

/-- `scheduleFollowUpSequence`: one delayed `followup` job per schedule
entry, delay in milliseconds (`delay * 24 * 60 * 60 * 1000`), priority 5. -/
def scheduleFollowUpSequence (leadId : Nat) : List QueuedJob :=
  followUpSchedule.map (fun p =>
    ⟨"followup", p.2, leadId, 5, p.1 * 24 * 60 * 60 * 1000⟩)

/-- `triggerHotLeadCampaign`, returning the jobs it enqueues: below the
configured threshold or already-messaged leads get nothing; otherwise one
`send-intro-email` job (priority 10, 5-minute safety delay of 300000 ms)
followed by the follow-up sequence.  `existingMessages` models the
`messages` rows found for the lead. -/
def triggerHotLeadCampaign (threshold : Int) (leadId : Nat) (existingMessages : List Nat)
    (totalScore : Int) : List QueuedJob :=
  if totalScore < threshold then []
  else if 0 < existingMessages.length then []
  else ⟨"email", "send-intro-email", leadId, 10, 300000⟩ :: scheduleFollowUpSequence leadId

/-- The jobs enqueued by `scoreSingleLead` after persisting the score: the
hot-lead campaign is triggered only when the computed total is ≥ 80. -/
def scoreSingleLeadJobs (threshold : Int) (leadId : Nat) (existingMessages : List Nat)
    (lead : Lead) : List QueuedJob :=
  let scoreData := calculateScore lead
  if 80 ≤ scoreData.totalScore then
    triggerHotLeadCampaign threshold leadId existingMessages scoreData.totalScore
  else []

/-- The `leads` row update performed by `scoreSingleLead` (lines 204-214):
the weighted total is persisted into `lead_score` — the same column
`incrementEngagementScore` later reads and overwrites. -/
def applyScoringUpdate (row : LeadRow) (scoreData : ScoreData) : LeadRow :=
  { row with leadScore := some scoreData.totalScore }

/-! ### Cron scheduler (`runDailyScraping`) -/

/-- A `scraping_jobs` table row created by `createScrapingJobRecord`. -/
structure ScrapeRecord where
  industries : List String
  locations : List String
deriving DecidableEq, Repr

/-- The payload of a queued scraping job. -/
structure ScrapeJob where
  jobType : String
  jobRecord : Nat
  industries : List String
  locations : List String
  maxLeadsPerIndustry : Nat
  priority : Int
deriving DecidableEq, Repr

/-- The persistent state the cron trigger touches: the `scraping_jobs`
table and the scraping queue.  There is no persisted last-fired timestamp
anywhere in the scheduler (`activeJobs` is an in-memory `Map`). -/
structure CronState where
  records : List ScrapeRecord
  queue : List ScrapeJob
deriving DecidableEq, Repr

/-- `createScrapingJobRecord`: insert a row, return its id. -/
def createScrapingJobRecord (st : CronState) (industries locations : List String) :
    CronState × Nat :=
  ({ st with records := st.records ++ [⟨industries, locations⟩] }, st.records.length)

/-- `runDailyScraping`: create a job record and unconditionally enqueue one
`daily-scraping` job (25 leads per industry, priority 7).  The target
industries and locations come from the environment (defaulted); they are
parameters here. -/
def runDailyScraping (industries locations : List String) (st : CronState) : CronState :=
  let rec1 := createScrapingJobRecord st industries locations
  { rec1.1 with queue := rec1.1.queue ++ [⟨"daily-scraping", rec1.2, industries, locations, 25, 7⟩] }

/-! ## Shared helper lemmas -/

theorem jsIntOr_some_zero (v : Int) : jsIntOr (some v) 0 = v := by
  simp only [jsIntOr]
  split <;> omega

theorem scoreWebsiteQuality_bounds (lead : Lead) :
    0 ≤ scoreWebsiteQuality lead ∧ scoreWebsiteQuality lead ≤ 100 := by
  simp only [scoreWebsiteQuality]
  repeat' split
  all_goals omega

theorem analyzeIndustryKeywords_bounds (lead : Lead) (seo : SeoData) :
    0 ≤ analyzeIndustryKeywords lead seo ∧ analyzeIndustryKeywords lead seo ≤ 30 := by
  simp only [analyzeIndustryKeywords]
  repeat' split
  all_goals omega

theorem scoreSEORanking_bounds (lead : Lead) :
    0 ≤ scoreSEORanking lead ∧ scoreSEORanking lead ≤ 100 := by
  have h := analyzeIndustryKeywords_bounds lead (lead.seoData.getD {})
  simp only [scoreSEORanking]
  repeat' split
  all_goals omega

theorem scoreAdPresence_bounds (lead : Lead) :
    0 ≤ scoreAdPresence lead ∧ scoreAdPresence lead ≤ 100 := by
  simp only [scoreAdPresence]
  repeat' split
  all_goals omega

theorem scoreReviews_bounds (lead : Lead) :
    0 ≤ scoreReviews lead ∧ scoreReviews lead ≤ 100 := by
  simp only [scoreReviews]
  repeat' split
  all_goals omega

theorem scorePlatform_bounds (p : Option PlatformData) :
    5 ≤ (scorePlatform p).1 ∧ (scorePlatform p).1 ≤ 15 ∧ (scorePlatform p).2 ≤ 1 := by
  simp only [scorePlatform]
  repeat' split
  all_goals simp

theorem scoreSocialPresence_bounds (lead : Lead) :
    0 ≤ scoreSocialPresence lead ∧ scoreSocialPresence lead ≤ 100 := by
  have h1 := scorePlatform_bounds (lead.socialPresence.getD {}).facebook
  have h2 := scorePlatform_bounds (lead.socialPresence.getD {}).instagram
  have h3 := scorePlatform_bounds (lead.socialPresence.getD {}).linkedin
  have h4 := scorePlatform_bounds (lead.socialPresence.getD {}).twitter
  have h5 := scorePlatform_bounds (lead.socialPresence.getD {}).youtube
  simp only [scoreSocialPresence, List.map, List.foldl]
  repeat' split
  all_goals omega

theorem scoreCompanySize_bounds (lead : Lead) :
    0 ≤ scoreCompanySize lead ∧ scoreCompanySize lead ≤ 100 := by
  simp only [scoreCompanySize]
  repeat' split
  all_goals omega

theorem scoreMarketCompetitiveness_bounds (lead : Lead) :
    0 ≤ scoreMarketCompetitiveness lead ∧ scoreMarketCompetitiveness lead ≤ 100 := by
  simp only [scoreMarketCompetitiveness]
  repeat' split
  all_goals omega

theorem dedupGo_filter (k : String) :
    ∀ (ls : List Candidate) (seen : List String),
      (dedupGo seen ls).filter (fun u => dedupKey u == k) =
        if k ∈ seen then [] else (ls.filter (fun u => dedupKey u == k)).take 1
  | [], seen => by
    simp [dedupGo]
  | l :: ls, seen => by
    simp only [dedupGo]
    by_cases hmem : dedupKey l ∈ seen
    · rw [if_pos hmem, dedupGo_filter k ls seen]
      by_cases hk : k ∈ seen
      · simp [hk]
      · have hne : ¬ (dedupKey l == k) = true := by
          simp only [beq_iff_eq]
          intro h
          exact hk (h ▸ hmem)
        simp [hk, List.filter_cons, hne]
    · rw [if_neg hmem]
      by_cases hkey : (dedupKey l == k) = true
      · have hkeq : dedupKey l = k := by simpa using hkey
        have hk : ¬ k ∈ seen := hkeq ▸ hmem
        have hmemc : k ∈ dedupKey l :: seen := by simp [hkeq]
        simp only [List.filter_cons, hkey, if_true]
        rw [dedupGo_filter k ls (dedupKey l :: seen), if_pos hmemc, if_neg hk]
        simp
      · simp only [List.filter_cons, hkey, if_false]
        rw [dedupGo_filter k ls (dedupKey l :: seen)]
        have hiff : (k ∈ dedupKey l :: seen) ↔ (k ∈ seen) := by
          simp only [List.mem_cons]
          constructor
          · rintro (h | h)
            · exact absurd (beq_iff_eq.mpr h.symm) hkey
            · exact h
          · exact Or.inr
        rw [if_congr hiff rfl rfl]
        simp

theorem dedupGo_sublist : ∀ (ls : List Candidate) (seen : List String),
    (dedupGo seen ls).Sublist ls
  | [], _ => by simp [dedupGo]
  | l :: ls, seen => by
    simp only [dedupGo]
    split
    · exact (dedupGo_sublist ls seen).cons l
    · exact (dedupGo_sublist ls (dedupKey l :: seen)).cons₂ l

theorem updateMessage_lead (st : WebhookState) (rid : Nat) (f : MessageRow → MessageRow) :
    (updateMessage st rid f).lead = st.lead := rfl

theorem handleEmailOpened_leadScore (st : WebhookState) :
    (handleEmailOpened st).lead.leadScore =
      some (min (jsIntOr st.lead.leadScore 0 + 5) 100) := by
  simp only [handleEmailOpened, incrementEngagementScore, recordLeadActivity, updateLeadStatus]
  split <;> rfl

theorem handleEmailOpened_messages (st : WebhookState) :
    (handleEmailOpened st).messages = st.messages := by
  simp only [handleEmailOpened, incrementEngagementScore, recordLeadActivity, updateLeadStatus]
  split <;> rfl

theorem processOpen_eq (st : WebhookState) (ev : SgEvent) (m : MessageRow)
    (hfind : st.messages.find? (fun x => x.mid = ev.sgMessageId) = some m)
    (hty : ev.eventType = "open") :
    processSendGridEvent ev st =
      updateMessage (handleEmailOpened st) m.rowId
        (fun x => { x with openedAt := some ev.timestamp }) := by
  unfold processSendGridEvent
  rw [hfind]
  simp [hty]

theorem mid_of_update (rid : Nat) (t : Nat) (x : MessageRow) :
    ((if x.rowId = rid then { x with openedAt := some t } else x) : MessageRow).mid = x.mid := by
  split <;> rfl

theorem processOpen_find (st : WebhookState) (ev : SgEvent) (m : MessageRow)
    (hfind : st.messages.find? (fun x => x.mid = ev.sgMessageId) = some m)
    (hty : ev.eventType = "open") :
    (processSendGridEvent ev st).messages.find? (fun x => x.mid = ev.sgMessageId) =
      some ({ m with openedAt := some ev.timestamp }) := by
  rw [processOpen_eq st ev m hfind hty]
  simp only [updateMessage, handleEmailOpened_messages]
  rw [List.find?_map]
  have hp : (fun (x : MessageRow) => decide (x.mid = ev.sgMessageId)) ∘
      (fun x => if x.rowId = m.rowId then { x with openedAt := some ev.timestamp } else x) =
      (fun x => decide (x.mid = ev.sgMessageId)) := by
    funext x
    simp only [Function.comp]
    rw [mid_of_update]
  rw [hp, hfind]
  simp

theorem handleEmailClicked_leadScore (st : WebhookState) (url : String) :
    (handleEmailClicked st url).lead.leadScore =
      some (min (jsIntOr st.lead.leadScore 0 + 10) 100) := rfl

theorem processClick_eq (st : WebhookState) (ev : SgEvent) (m : MessageRow)
    (hfind : st.messages.find? (fun x => x.mid = ev.sgMessageId) = some m)
    (hty : ev.eventType = "click") :
    processSendGridEvent ev st =
      updateMessage (handleEmailClicked st (jsStrOr ev.url "")) m.rowId
        (fun x => { x with clickedAt := some ev.timestamp }) := by
  unfold processSendGridEvent
  rw [hfind]
  simp [hty]

theorem applyScoringUpdate_leadScore (row : LeadRow) (sd : ScoreData) :
    (applyScoringUpdate row sd).leadScore = some sd.totalScore := rfl

/-! ## Claim theorems -/

/-- C1 (counterexample): the claim's normalization — lower-casing AND
stripping punctuation/whitespace variance — is finer than the code's key.
Two candidates whose addresses differ only by a trailing period share the
spec's normalized identity key, yet `deduplicateLeads` keeps both, so the
output does not contain exactly one candidate per normalized identity key. -/
theorem claim1_spec_normalization_fails :
    specIdentityKey ⟨"ABC Plumbing", "1 Main St", none, none, some "google"⟩ =
      specIdentityKey ⟨"ABC Plumbing", "1 Main St.", none, none, some "yelp"⟩ ∧
    deduplicateLeads
        [⟨"ABC Plumbing", "1 Main St", none, none, some "google"⟩,
         ⟨"ABC Plumbing", "1 Main St.", none, none, some "yelp"⟩] =
      [⟨"ABC Plumbing", "1 Main St", none, none, some "google"⟩,
       ⟨"ABC Plumbing", "1 Main St.", none, none, some "yelp"⟩] := by
  constructor
  · decide
  · decide

/-- C1 (amended): `deduplicateLeads` keeps exactly one candidate per
identity key, where the key is the lower-cased name and lower-cased address
joined by a hyphen (no punctuation or whitespace stripping): for every key,
the output's candidates with that key are exactly the first input candidate
with that key (first-seen wins, later duplicates dropped), and the output
is a sublist of the input (candidates pass through unchanged, no field
merging). -/
theorem claim1_dedup_one_per_lowercase_key (ls : List Candidate) (k : String) :
    (deduplicateLeads ls).filter (fun u => dedupKey u == k) =
      (ls.filter (fun u => dedupKey u == k)).take 1 ∧
    (deduplicateLeads ls).Sublist ls := by
  constructor
  · simpa using dedupGo_filter k ls []
  · exact dedupGo_sublist ls []

/-- C2 (counterexample): a `delivered` event for a lead already in status
`qualified` moves it backward to `contacted` — the claimed "only if the
lead is not already further along" guard does not exist in
`updateLeadStatus`. -/
theorem claim2_counterexample :
    (processSendGridEvent ⟨"delivered", 100, 5000, none, none⟩
        ⟨1, ⟨.qualified, some 50⟩, [⟨10, 100, "", none, none, none, none⟩], [], [], []⟩).lead.status =
      .contacted ∧
    LeadStatus.contacted ≠ LeadStatus.qualified := by
  constructor
  · decide
  · decide

/-- C2 (amended): processing a `delivered` event whose message is found
sets the lead's status to `contacted` unconditionally, whatever the current
status (`new`, `qualified`, `converted` or `lost`); there is no
monotonicity guard. -/
theorem claim2_delivered_sets_contacted_unconditionally (st : WebhookState) (ev : SgEvent)
    (m : MessageRow)
    (hfind : st.messages.find? (fun x => x.mid = ev.sgMessageId) = some m)
    (hty : ev.eventType = "delivered") :
    (processSendGridEvent ev st).lead.status = .contacted := by
  unfold processSendGridEvent
  rw [hfind]
  simp [hty, updateMessage, updateLeadStatus]

/-- C2 (witness): the amended theorem applied at a concrete new lead and a
concrete delivered event. -/
theorem claim2_witness :
    (processSendGridEvent ⟨"delivered", 100, 5000, none, none⟩
        ⟨1, ⟨.isNew, none⟩, [⟨10, 100, "", none, none, none, none⟩], [], [], []⟩).lead.status =
      .contacted :=
  claim2_delivered_sets_contacted_unconditionally _ ⟨"delivered", 100, 5000, none, none⟩
    ⟨10, 100, "", none, none, none, none⟩ (by decide) rfl

/-- C3 (counterexample): event replay is not idempotent. Applying the same
`opened` event twice to a lead with score 0 yields a different state than
applying it once: the score is 10 instead of 5 (and the second replay also
flips the status and queues an enrichment job). -/
theorem claim3_counterexample :
    (processSendGridEvent ⟨"open", 100, 5000, none, none⟩
        (processSendGridEvent ⟨"open", 100, 5000, none, none⟩
          ⟨1, ⟨.isNew, some 0⟩, [⟨10, 100, "", none, none, none, none⟩], [], [], []⟩)) ≠
      processSendGridEvent ⟨"open", 100, 5000, none, none⟩
        ⟨1, ⟨.isNew, some 0⟩, [⟨10, 100, "", none, none, none, none⟩], [], [], []⟩ ∧
    (processSendGridEvent ⟨"open", 100, 5000, none, none⟩
        ⟨1, ⟨.isNew, some 0⟩, [⟨10, 100, "", none, none, none, none⟩], [], [], []⟩).lead.leadScore =
      some 5 ∧
    (processSendGridEvent ⟨"open", 100, 5000, none, none⟩
        (processSendGridEvent ⟨"open", 100, 5000, none, none⟩
          ⟨1, ⟨.isNew, some 0⟩, [⟨10, 100, "", none, none, none, none⟩], [], [], []⟩)).lead.leadScore =
      some 10 := by
  refine ⟨?_, ?_, ?_⟩ <;> decide

/-- C3 (amended): events are not deduplicated, so replaying an `opened`
event increments the engagement score again: one application yields
`min(score + 5, 100)`, two applications of the very same event yield
`min(score + 10, 100)`; replay is idempotent only once the 100 cap has been
reached. -/
theorem claim3_open_replay_double_increments (st : WebhookState) (ev : SgEvent) (m : MessageRow)
    (hfind : st.messages.find? (fun x => x.mid = ev.sgMessageId) = some m)
    (hty : ev.eventType = "open") :
    (processSendGridEvent ev st).lead.leadScore =
      some (min (jsIntOr st.lead.leadScore 0 + 5) 100) ∧
    (processSendGridEvent ev (processSendGridEvent ev st)).lead.leadScore =
      some (min (jsIntOr st.lead.leadScore 0 + 10) 100) := by
  have h1 : (processSendGridEvent ev st).lead.leadScore =
      some (min (jsIntOr st.lead.leadScore 0 + 5) 100) := by
    rw [processOpen_eq st ev m hfind hty, updateMessage_lead, handleEmailOpened_leadScore]
  refine ⟨h1, ?_⟩
  have hfind2 := processOpen_find st ev m hfind hty
  rw [processOpen_eq (processSendGridEvent ev st) ev _ hfind2 hty, updateMessage_lead,
    handleEmailOpened_leadScore, h1, jsIntOr_some_zero]
  congr 1
  omega

/-- C3 (witness): the amended theorem applied at a concrete lead with
score 0 and a concrete opened event. -/
theorem claim3_witness :
    (processSendGridEvent ⟨"open", 100, 5000, none, none⟩
        ⟨1, ⟨.isNew, some 0⟩, [⟨10, 100, "", none, none, none, none⟩], [], [], []⟩).lead.leadScore =
      some (min (jsIntOr (some 0) 0 + 5) 100) ∧
    (processSendGridEvent ⟨"open", 100, 5000, none, none⟩
        (processSendGridEvent ⟨"open", 100, 5000, none, none⟩
          ⟨1, ⟨.isNew, some 0⟩, [⟨10, 100, "", none, none, none, none⟩], [], [], []⟩)).lead.leadScore =
      some (min (jsIntOr (some 0) 0 + 10) 100) :=
  claim3_open_replay_double_increments _ ⟨"open", 100, 5000, none, none⟩
    ⟨10, 100, "", none, none, none, none⟩ (by decide) rfl

/-- C4 (counterexample): a `bounce` event sets the lead's status to `lost`
but leaves its pending follow-up job in the queue — one follow-up remains
pending, not zero (`cancelScheduledFollowUps` is only called from the
clicked handler). -/
theorem claim4_counterexample :
    (processSendGridEvent ⟨"bounce", 100, 5000, none, none⟩
        ⟨1, ⟨.contacted, some 85⟩, [⟨10, 100, "", none, none, none, none⟩],
          [⟨1, "followup-1", 259200000, 5⟩], [], []⟩).lead.status = .lost ∧
    (processSendGridEvent ⟨"bounce", 100, 5000, none, none⟩
        ⟨1, ⟨.contacted, some 85⟩, [⟨10, 100, "", none, none, none, none⟩],
          [⟨1, "followup-1", 259200000, 5⟩], [], []⟩).followupJobs.length = 1 := by
  constructor <;> decide

/-- C4 (amended): a `bounce`/`dropped`/`spam_report` (bounced or
complained) event sets the lead's status to `lost` but does not cancel any
pending follow-up jobs — the follow-up queue is left exactly as it was. -/
theorem claim4_bounce_sets_lost_keeps_followups (st : WebhookState) (ev : SgEvent)
    (m : MessageRow)
    (hfind : st.messages.find? (fun x => x.mid = ev.sgMessageId) = some m)
    (hty : ev.eventType = "bounce" ∨ ev.eventType = "dropped" ∨ ev.eventType = "spam_report") :
    (processSendGridEvent ev st).lead.status = .lost ∧
    (processSendGridEvent ev st).followupJobs = st.followupJobs := by
  unfold processSendGridEvent
  rw [hfind]
  rcases hty with h | h | h <;>
    simp [h, updateMessage, updateLeadStatus, recordLeadActivity]

/-- C4 (witness): the amended theorem applied at a concrete contacted lead
with one pending follow-up and a concrete bounce event. -/
theorem claim4_witness :
    (processSendGridEvent ⟨"bounce", 100, 5000, none, none⟩
        ⟨1, ⟨.contacted, some 85⟩, [⟨10, 100, "", none, none, none, none⟩],
          [⟨1, "followup-1", 259200000, 5⟩], [], []⟩).lead.status = .lost ∧
    (processSendGridEvent ⟨"bounce", 100, 5000, none, none⟩
        ⟨1, ⟨.contacted, some 85⟩, [⟨10, 100, "", none, none, none, none⟩],
          [⟨1, "followup-1", 259200000, 5⟩], [], []⟩).followupJobs =
      [⟨1, "followup-1", 259200000, 5⟩] :=
  claim4_bounce_sets_lost_keeps_followups _ ⟨"bounce", 100, 5000, none, none⟩
    ⟨10, 100, "", none, none, none, none⟩ (by decide) (Or.inl rfl)

/-- C5: when scoring completes with a total at or above the configured
auto-contact threshold (the default 80; any configured threshold ≥ the
hard-coded 80 gate behaves alike) and the lead has no prior messages, the
processor enqueues exactly one send-email job with the fixed 300000 ms
(5-minute) safety delay followed by the three follow-up jobs delayed by
3, 7 and 14 days; a lead with any existing message triggers nothing. -/
theorem claim5_hot_lead_trigger (threshold : Int) (leadId : Nat) (lead : Lead)
    (hthr : 80 ≤ threshold) (hscore : threshold ≤ (calculateScore lead).totalScore) :
    scoreSingleLeadJobs threshold leadId [] lead =
      ⟨"email", "send-intro-email", leadId, 10, 300000⟩ :: scheduleFollowUpSequence leadId ∧
    (scoreSingleLeadJobs threshold leadId [] lead).countP (fun j => j.queue == "email") = 1 ∧
    (scoreSingleLeadJobs threshold leadId [] lead).countP (fun j => j.queue == "followup") = 3 ∧
    (scheduleFollowUpSequence leadId).map (fun j => j.delayMs) =
      [259200000, 604800000, 1209600000] ∧
    (∀ m ms, scoreSingleLeadJobs threshold leadId (m :: ms) lead = []) := by
  have h80 : 80 ≤ (calculateScore lead).totalScore := le_trans hthr hscore
  have hmain : scoreSingleLeadJobs threshold leadId [] lead =
      ⟨"email", "send-intro-email", leadId, 10, 300000⟩ :: scheduleFollowUpSequence leadId := by
    simp only [scoreSingleLeadJobs, triggerHotLeadCampaign, if_pos h80]
    rw [if_neg (by omega), if_neg (by simp)]
  refine ⟨hmain, ?_, ?_, ?_, ?_⟩
  · rw [hmain]
    simp [scheduleFollowUpSequence, followUpSchedule, List.countP, List.countP.go]
  · rw [hmain]
    simp [scheduleFollowUpSequence, followUpSchedule, List.countP, List.countP.go]
  · simp [scheduleFollowUpSequence, followUpSchedule]
  · intro m ms
    simp only [scoreSingleLeadJobs, triggerHotLeadCampaign, if_pos h80]
    rw [if_neg (by omega), if_pos (by simp)]

/-- C5 (witness): the theorem applied at the default threshold 80 and a
concrete lead (all enrichment absent) whose computed total is 92 ≥ 80. -/
theorem claim5_witness :
    scoreSingleLeadJobs 80 1 [] {} =
      ⟨"email", "send-intro-email", 1, 10, 300000⟩ :: scheduleFollowUpSequence 1 ∧
    (scoreSingleLeadJobs 80 1 [] {}).countP (fun j => j.queue == "email") = 1 ∧
    (scoreSingleLeadJobs 80 1 [] {}).countP (fun j => j.queue == "followup") = 3 ∧
    (scheduleFollowUpSequence 1).map (fun j => j.delayMs) = [259200000, 604800000, 1209600000] ∧
    scoreSingleLeadJobs 80 1 [7] {} = [] := by
  have h := claim5_hot_lead_trigger 80 1 {} (by norm_num) (by decide)
  exact ⟨h.1, h.2.1, h.2.2.1, h.2.2.2.1, h.2.2.2.2 7 []⟩

/-- C6 (code bug): on a lead's first-ever `opened` event the code does not
qualify the lead and does not enqueue the enrichment job, because
`handleEmailOpened` counts the messages whose `opened_at` is already
recorded — which is still 0, as the current event's `opened_at` is
persisted only after the handler returns.  The "first open" effects
instead fire on the event processed when exactly one open is already
recorded: here the second open of the same message (and they would re-fire
on every later open of that single message). -/
theorem claim6_first_open_not_qualified :
    (processSendGridEvent ⟨"open", 100, 5000, none, none⟩
        ⟨1, ⟨.contacted, some 85⟩, [⟨10, 100, "", none, none, none, none⟩], [], [], []⟩).lead.status =
      .contacted ∧
    (processSendGridEvent ⟨"open", 100, 5000, none, none⟩
        ⟨1, ⟨.contacted, some 85⟩, [⟨10, 100, "", none, none, none, none⟩], [], [], []⟩).queuedJobs = [] ∧
    (processSendGridEvent ⟨"open", 100, 6000, none, none⟩
        (processSendGridEvent ⟨"open", 100, 5000, none, none⟩
          ⟨1, ⟨.contacted, some 85⟩, [⟨10, 100, "", none, none, none, none⟩], [], [], []⟩)).lead.status =
      .qualified ∧
    (processSendGridEvent ⟨"open", 100, 6000, none, none⟩
        (processSendGridEvent ⟨"open", 100, 5000, none, none⟩
          ⟨1, ⟨.contacted, some 85⟩, [⟨10, 100, "", none, none, none, none⟩], [], [], []⟩)).queuedJobs =
      [enrichJob 1] := by
  refine ⟨?_, ?_, ?_, ?_⟩ <;> decide

/-- C7: for every lead, each of the seven component scores lies in
[0, 100], the seven weights sum to 100, and the weighted total returned by
`calculateScore` lies in [0, 100]. -/
theorem claim7_scores_bounded (lead : Lead) :
    (0 ≤ scoreWebsiteQuality lead ∧ scoreWebsiteQuality lead ≤ 100) ∧
    (0 ≤ scoreSEORanking lead ∧ scoreSEORanking lead ≤ 100) ∧
    (0 ≤ scoreAdPresence lead ∧ scoreAdPresence lead ≤ 100) ∧
    (0 ≤ scoreReviews lead ∧ scoreReviews lead ≤ 100) ∧
    (0 ≤ scoreSocialPresence lead ∧ scoreSocialPresence lead ≤ 100) ∧
    (0 ≤ scoreCompanySize lead ∧ scoreCompanySize lead ≤ 100) ∧
    (0 ≤ scoreMarketCompetitiveness lead ∧ scoreMarketCompetitiveness lead ≤ 100) ∧
    weights.websiteQuality + weights.seoRanking + weights.adPresence + weights.reviewScore +
      weights.socialPresence + weights.companySize + weights.marketCompetitiveness = 100 ∧
    (0 ≤ (calculateScore lead).totalScore ∧ (calculateScore lead).totalScore ≤ 100) := by
  have h1 := scoreWebsiteQuality_bounds lead
  have h2 := scoreSEORanking_bounds lead
  have h3 := scoreAdPresence_bounds lead
  have h4 := scoreReviews_bounds lead
  have h5 := scoreSocialPresence_bounds lead
  have h6 := scoreCompanySize_bounds lead
  have h7 := scoreMarketCompetitiveness_bounds lead
  refine ⟨h1, h2, h3, h4, h5, h6, h7, by norm_num [weights], ?_⟩
  simp only [calculateScore, weightedSum, weights]
  omega

/-- C8 (counterexample): the daily scraping trigger fired twice in the same
interval (e.g. across a restart) enqueues two daily-scraping jobs — it
double-enqueues, because nothing persists a last-fired timestamp. -/
theorem claim8_counterexample :
    (runDailyScraping ["HVAC", "PLUMBING", "ROOFING", "ELECTRICAL"]
        ["Phoenix, AZ", "Los Angeles, CA", "Houston, TX"]
        (runDailyScraping ["HVAC", "PLUMBING", "ROOFING", "ELECTRICAL"]
          ["Phoenix, AZ", "Los Angeles, CA", "Houston, TX"] ⟨[], []⟩)).queue.length = 2 := by
  decide

/-- C8 (amended): every firing of the daily scraping trigger
unconditionally appends one daily-scraping job to the queue, regardless of
any previous firing — the trigger is guarded only by the in-memory cron
schedule, not by a persisted last-fired timestamp, so two firings in one
interval enqueue two jobs. -/
theorem claim8_daily_trigger_always_enqueues (industries locations : List String)
    (st : CronState) :
    (runDailyScraping industries locations st).queue =
      st.queue ++ [⟨"daily-scraping", st.records.length, industries, locations, 25, 7⟩] ∧
    (runDailyScraping industries locations (runDailyScraping industries locations st)).queue.length =
      st.queue.length + 2 := by
  constructor
  · rfl
  · simp [runDailyScraping, createScrapingJobRecord]

/-- C9: engagement events write the very `lead_score` field the scoring
processor persists its weighted total into (`applyScoringUpdate`): after a
lead is scored, an `open` event overwrites the stored total with
`min(total + 5, 100)` and a `click` event with `min(total + 10, 100)` — the
model has a single `leadScore` field, there is no separate engagement-score
field. -/
theorem claim9_engagement_overwrites_lead_score (st : WebhookState) (row : LeadRow)
    (sd : ScoreData) (ev : SgEvent) (m : MessageRow)
    (hlead : st.lead = applyScoringUpdate row sd)
    (hfind : st.messages.find? (fun x => x.mid = ev.sgMessageId) = some m) :
    (ev.eventType = "open" →
      (processSendGridEvent ev st).lead.leadScore = some (min (sd.totalScore + 5) 100)) ∧
    (ev.eventType = "click" →
      (processSendGridEvent ev st).lead.leadScore = some (min (sd.totalScore + 10) 100)) := by
  constructor
  · intro hty
    rw [processOpen_eq st ev m hfind hty, updateMessage_lead, handleEmailOpened_leadScore,
      hlead, applyScoringUpdate_leadScore, jsIntOr_some_zero]
  · intro hty
    rw [processClick_eq st ev m hfind hty, updateMessage_lead, handleEmailClicked_leadScore,
      hlead, applyScoringUpdate_leadScore, jsIntOr_some_zero]

/-- C9 (witness): the theorem applied at a concrete scored lead and a
concrete open event. -/
theorem claim9_witness :
    (processSendGridEvent ⟨"open", 100, 5000, none, none⟩
        ⟨1, applyScoringUpdate ⟨.isNew, none⟩ (calculateScore {}),
          [⟨10, 100, "", none, none, none, none⟩], [], [], []⟩).lead.leadScore =
      some (min ((calculateScore ({} : Lead)).totalScore + 5) 100) :=
  (claim9_engagement_overwrites_lead_score _ ⟨.isNew, none⟩ (calculateScore {})
    ⟨"open", 100, 5000, none, none⟩ ⟨10, 100, "", none, none, none, none⟩ rfl (by decide)).1 rfl

/-- C10: for every (fallible) per-lead scoring function and every input
list, `scoreLeadsWith` returns exactly as many entries as the input, its
output is a permutation of the per-lead results in which every lead whose
scoring raised an error appears with score 0 and tier "Error", and the
output is sorted by score in descending order; `scoreLeads` is this
procedure with the (total) `calculateScore`. -/
theorem claim10_scoreLeads_total_sorted (f : Lead → Except String ScoreData)
    (leads : List Lead) :
    (scoreLeadsWith f leads).length = leads.length ∧
    (scoreLeadsWith f leads).Perm (leads.map (scoreStep f)) ∧
    List.Sorted scoreGe (scoreLeadsWith f leads) ∧
    (∀ l ∈ leads, ∀ e, f l = .error e →
      (⟨l, 0, "Error", none, none⟩ : ScoredLead) ∈ scoreLeadsWith f leads) ∧
    scoreLeads leads = scoreLeadsWith (fun l => Except.ok (calculateScore l)) leads := by
  have hperm : (scoreLeadsWith f leads).Perm (leads.map (scoreStep f)) :=
    List.perm_insertionSort _ _
  refine ⟨?_, hperm, ?_, ?_, rfl⟩
  · rw [hperm.length_eq, List.length_map]
  · exact List.sorted_insertionSort scoreGe _
  · intro l hl e he
    have hmem : scoreStep f l ∈ leads.map (scoreStep f) := List.mem_map_of_mem _ hl
    have hstep : scoreStep f l = ⟨l, 0, "Error", none, none⟩ := by simp [scoreStep, he]
    rw [hperm.mem_iff, ← hstep]
    exact hmem

/-- C10 (witness): the theorem applied at a concrete always-failing scorer
and a one-lead list: the lead appears with score 0 / tier "Error" and the
output length equals the input length. -/
theorem claim10_witness :
    (⟨({} : Lead), 0, "Error", none, none⟩ : ScoredLead) ∈
      scoreLeadsWith (fun _ => Except.error "boom") [{}] ∧
    (scoreLeadsWith (fun _ => Except.error "boom") [({} : Lead)]).length = 1 := by
  have h := claim10_scoreLeads_total_sorted (fun _ => Except.error "boom") [{}]
  exact ⟨h.2.2.2.1 {} (by simp) "boom" rfl, by rw [h.1]; rfl⟩

end SL
